import Mathlib

set_option autoImplicit false

namespace DBC

/-!
Shallow embedding of the deathbycaptcha API client.

The repository ships the agent wrapper (`agents/agent_wrapper.py`), examples
and the test suite; the core client module `deathbycaptcha` itself (image
sniffer, HTTP/socket transports, constants) is imported by that code but its
source is not part of the tree, so those parts are modelled from the
specification, as marked on each definition.  Byte strings are modelled as
lists of byte values (`List Nat`, each element a value 0..255); dictionaries
as association lists.  Definitions come first, all theorems follow.
-/

/-! ## Image sniffer (`fast_imghdr.what`) -/

/-- Byte strings, one `Nat` per byte. -/
abbrev Bytes := List Nat

/-- `startsWith pat h` is true when `pat` occurs at the very beginning of `h`
(Python `h.startswith(pat)`). -/
def startsWith : Bytes → Bytes → Bool
  | [], _ => true
  | _ :: _, [] => false
  | a :: p, b :: t => (a == b) && startsWith p t

/-- `sublistAt off pat h` is true when `pat` occurs in `h` at offset `off`
(Python `h[off:off+len(pat)] == pat`). -/
def sublistAt (off : Nat) (pat h : Bytes) : Bool :=
  startsWith pat (h.drop off)

/-- PNG signature `\x89PNG\r\n\x1a\n`. -/
def pngMagic : Bytes := [0x89, 0x50, 0x4E, 0x47, 0x0D, 0x0A, 0x1A, 0x0A]

/-- JPEG SOI + APP0 marker `\xFF\xD8\xFF\xE0`. -/
def jpegMagicE0 : Bytes := [0xFF, 0xD8, 0xFF, 0xE0]

/-- JPEG SOI + APP1 marker `\xFF\xD8\xFF\xE1`. -/
def jpegMagicE1 : Bytes := [0xFF, 0xD8, 0xFF, 0xE1]

/-- ASCII `JFIF`, expected at offset 6 of a JPEG stream. -/
def jfifTag : Bytes := [0x4A, 0x46, 0x49, 0x46]

/-- ASCII `Exif`, expected at offset 6 of a JPEG stream. -/
def exifTag : Bytes := [0x45, 0x78, 0x69, 0x66]

/-- ASCII `GIF87a`. -/
def gif87Magic : Bytes := [0x47, 0x49, 0x46, 0x38, 0x37, 0x61]

/-- ASCII `GIF89a`. -/
def gif89Magic : Bytes := [0x47, 0x49, 0x46, 0x38, 0x39, 0x61]

/-- ASCII `BM`. -/
def bmpMagic : Bytes := [0x42, 0x4D]

/-- ASCII `RIFF`. -/
def riffMagic : Bytes := [0x52, 0x49, 0x46, 0x46]

/-- ASCII `WEBP`, expected at offset 8 of a RIFF container. -/
def webpTag : Bytes := [0x57, 0x45, 0x42, 0x50]

/-- Modelled from the spec: the byte-pattern classifier `fast_imghdr.what` of
the `deathbycaptcha.fast_imghdr` module, which is imported by the tests but is
not part of the tree.  Per spec section 4.1 it recognizes fixed-offset magic
sequences — PNG, JPEG (SOI/APP0 or SOI/APP1 followed by `JFIF`/`Exif`), GIF
(87a/89a), BMP and WebP — and returns `none` (Unknown) for empty or
unrecognized input. -/
def what (h : Bytes) : Option String :=
  if startsWith pngMagic h then some "png"
  else if (startsWith jpegMagicE0 h || startsWith jpegMagicE1 h)
      && (sublistAt 6 jfifTag h || sublistAt 6 exifTag h) then some "jpeg"
  else if startsWith gif87Magic h || startsWith gif89Magic h then some "gif"
  else if startsWith bmpMagic h then some "bmp"
  else if startsWith riffMagic h && sublistAt 8 webpTag h then some "webp"
  else none

/-! ## Module constants -/

/-- Modelled from the spec: `SOCKET_HOST`, the fixed socket transport host of
the `deathbycaptcha` module (not in the tree; asserted by
`tests/test_constants.py`). -/
def SOCKET_HOST : String := "api.dbcapi.me"

/-- Modelled from the spec: `SOCKET_PORTS`, the candidate port list of the
`deathbycaptcha` module (not in the tree) — the contiguous fallback range
8123 through 8130, in order. -/
def SOCKET_PORTS : List Nat := [8123, 8124, 8125, 8126, 8127, 8128, 8129, 8130]

/-! ## Client credentials -/

/-- The two credential forms of spec section 3: a username/password pair or a
single authtoken. -/
inductive Auth where
  | userpwd (username password : String)
  | token (authtoken : String)
deriving DecidableEq

/-- Modelled from the spec: the construction-time state of a client instance
(`HttpClient`/`SocketClient` of the `deathbycaptcha` module, not in the tree):
a username/password pair and an optional authtoken, immutable after
construction.  The embedding is purely functional, so no later mutation of
the credential fields is expressible. -/
structure Client where
  username : String
  password : String
  authtoken : Option String
deriving DecidableEq

/-- Modelled from the spec: `Client.get_auth` — returns the authtoken
credential form when an authtoken was supplied at construction, and the
username/password form otherwise (asserted by `tests/test_imports.py`). -/
def get_auth (c : Client) : Auth :=
  match c.authtoken with
  | some t => .token t
  | none => .userpwd c.username c.password

/-! ## Account queries -/

/-- Values appearing in the JSON response dictionaries of the account query:
numbers or booleans. -/
inductive JVal where
  | num (n : Int)
  | bool (b : Bool)
deriving DecidableEq

/-- The server-side account state read (not cached) by every account query:
user id, balance in cents, rate, ban flag. -/
structure ServerAccount where
  user : Int
  balance : Int
  rate : Int
  is_banned : Bool
deriving DecidableEq

/-- Modelled from the spec: `HttpClient.get_user` of the `deathbycaptcha`
module (not in the tree) — a successfully authenticated account query returns
the point-in-time account snapshot as a dictionary.  The field names are the
ones the repository tests assert (`tests/test_integration_balance.py` requires
the keys `user`, `balance`, `rate`, `is_banned`). -/
def http_get_user (acc : ServerAccount) : List (String × JVal) :=
  [("user", .num acc.user), ("balance", .num acc.balance),
   ("rate", .num acc.rate), ("is_banned", .bool acc.is_banned)]

/-- Modelled from the spec: `HttpClient.get_balance` — the balance query
returns the integer cents balance of the account snapshot. -/
def http_get_balance (acc : ServerAccount) : Int := acc.balance

/-- Modelled from the spec: `SocketClient.get_user` — the socket transport
mirrors the HTTP operations over its persistent connection and returns the
same snapshot dictionary for the same account state. -/
def socket_get_user (acc : ServerAccount) : List (String × JVal) :=
  [("user", .num acc.user), ("balance", .num acc.balance),
   ("rate", .num acc.rate), ("is_banned", .bool acc.is_banned)]

/-- Modelled from the spec: `SocketClient.get_balance`. -/
def socket_get_balance (acc : ServerAccount) : Int := acc.balance

/-! ## Decode: submission and polling -/

/-- Status of a submitted job as reported by `check_status`. -/
inductive JobStatus where
  | pending
  | solved (text : String)
  | expired
deriving DecidableEq

/-- Transport-level faults, surfaced as typed exceptions. -/
inductive TransportFault where
  | transportError (msg : String)
deriving DecidableEq

/-- The captcha dictionary `decode` hands back when the job resolved. -/
structure CaptchaDict where
  captcha : Nat
  text : String
deriving DecidableEq

/-- The polling loop of `decode`: issue `check_status` once per scheduler
interval (`statusAt i` is the job status the i-th poll observes), stopping at
SOLVED or EXPIRED, and returning the empty result once the scheduler is
exhausted. -/
def decodePoll (statusAt : Nat → JobStatus) (id : Nat) :
    Nat → Nat → Option CaptchaDict
  | _, 0 => none
  | i, fuel + 1 =>
    match statusAt i with
    | .solved t => some ⟨id, t⟩
    | .expired => none
    | .pending => decodePoll statusAt id (i + 1) fuel

/-- Modelled from the spec: `Client.decode` of the `deathbycaptcha` module
(not in the tree) — submit, then loop over the poll scheduler issuing
`check_status` until SOLVED/EXPIRED or scheduler exhaustion; exhaustion
(the TIMEOUT state) is reported as the normal empty result `Except.ok none`,
never as an `Except.error`.  `submitRes` is the outcome of the submission,
`polls` the number of polls the scheduler grants the caller's timeout. -/
def decode (submitRes : Except TransportFault Nat) (statusAt : Nat → JobStatus)
    (polls : Nat) : Except TransportFault (Option CaptchaDict) :=
  match submitRes with
  | .error e => .error e
  | .ok id => .ok (decodePoll statusAt id 0 polls)

/-- The text a caller of `decode` observes on its result: present only when
the job resolved with a text. -/
def observedText : Except TransportFault (Option CaptchaDict) → Option String
  | .error _ => none
  | .ok none => none
  | .ok (some d) => some d.text

/-! ## Agent wrapper (`agents/agent_wrapper.py`) -/

/-- `CaptchaResult` of `agent_wrapper.py`: the standardized solving result.
The telemetry fields `cost_cents` and `time_seconds` measure balance deltas
and wall time and are outside the embedding. -/
structure CaptchaResult where
  success : Bool
  text : Option String := none
  captcha_id : Option Nat := none
  is_correct : Option Bool := none
  error : Option String := none
deriving DecidableEq

/-- The dictionary a completed `client.decode` call returns, as read by the
wrapper (`result.get` of `text`, `captcha`, `is_correct`). -/
structure DecodeRes where
  text : Option String
  captcha : Option Nat
  is_correct : Option Bool
deriving DecidableEq

/-- Outcome of one `client.decode` attempt inside `CaptchaSolver.solve`:
either a normal return (possibly `None` or lacking text, both falsy) or one
of the exception kinds the wrapper catches — `AccessDeniedException`,
`ValueError`, `OverflowError` (the overload kind) or any other exception. -/
inductive DecodeOutcome where
  | ok (res : Option DecodeRes)
  | accessDenied (msg : String)
  | valueError (msg : String)
  | overload (msg : String)
  | otherFailure (msg : String)
deriving DecidableEq

/-- The final result of `CaptchaSolver.solve` when every attempt of the retry
budget has been consumed (`agent_wrapper.py` lines 236-241). -/
def failAfterRetries : CaptchaResult :=
  ⟨false, none, none, none, some "Failed to solve CAPTCHA after retries"⟩

/-- The retry loop of `CaptchaSolver.solve` (`agent_wrapper.py` lines
179-241): `outcomes a` is what the `client.decode` call does on attempt `a`;
the loop runs `maxRetries` attempts, returning early on a solved result with
non-empty text (`if result and result.get('text')`), on
`AccessDeniedException` and on `ValueError`, and otherwise sleeping
`2 ** attempt` seconds (recorded in the returned list, in order) whenever
another attempt remains (`attempt < max_retries - 1`). -/
def solveGo (outcomes : Nat → DecodeOutcome) (maxRetries : Nat) :
    Nat → Nat → CaptchaResult × List Nat
  | _, 0 => (failAfterRetries, [])
  | a, fuel + 1 =>
    match outcomes a with
    | .ok res =>
      match res with
      | some r =>
        match r.text with
        | some t =>
          if t = "" then solveGo outcomes maxRetries (a + 1) fuel
          else (⟨true, some t, r.captcha, r.is_correct, none⟩, [])
        | none => solveGo outcomes maxRetries (a + 1) fuel
      | none => solveGo outcomes maxRetries (a + 1) fuel
    | .accessDenied msg =>
      (⟨false, none, none, none, some ("Authentication failed: " ++ msg)⟩, [])
    | .valueError msg =>
      (⟨false, none, none, none, some ("Invalid image: " ++ msg)⟩, [])
    | .overload _ =>
      let rest := solveGo outcomes maxRetries (a + 1) fuel
      (rest.1, (if a < maxRetries - 1 then [2 ^ a] else []) ++ rest.2)
    | .otherFailure _ =>
      let rest := solveGo outcomes maxRetries (a + 1) fuel
      (rest.1, (if a < maxRetries - 1 then [2 ^ a] else []) ++ rest.2)

/-- `CaptchaSolver.solve`: run the retry loop from attempt 0 with the full
retry budget; also returns the backoff sleeps performed, in order. -/
def solve (outcomes : Nat → DecodeOutcome) (maxRetries : Nat) :
    CaptchaResult × List Nat :=
  solveGo outcomes maxRetries 0 maxRetries

/-- The backoff sleeps the retry loop performs from attempt `a` with `fuel`
attempts left, when every attempt keeps failing retryably. -/
def overloadSleeps (maxRetries : Nat) : Nat → Nat → List Nat
  | _, 0 => []
  | a, fuel + 1 =>
    (if a < maxRetries - 1 then [2 ^ a] else []) ++
      overloadSleeps maxRetries (a + 1) fuel

/-- `CaptchaSolver.get_balance` (`agent_wrapper.py` lines 129-142): returns
the underlying client's balance, or the documented sentinel 0 when the
underlying call raises any exception (`r` is the underlying call's outcome,
an exception being `Except.error` with its message). -/
def wrapperGetBalance (r : Except String Int) : Int :=
  match r with
  | .ok b => b
  | .error _ => 0

/-- The batch budget guard of `CaptchaSolver.solve_batch`
(`if max_per_batch and i >= max_per_batch`): Python truthiness makes both
`None` and `0` skip the guard entirely. -/
def batchLimitReached (maxPerBatch : Option Nat) (i : Nat) : Bool :=
  match maxPerBatch with
  | none => false
  | some m => (m != 0) && decide (m ≤ i)

/-- The loop of `CaptchaSolver.solve_batch` (`agent_wrapper.py` lines
262-292): `solveF c` is the result `self.solve(c, timeout)` produces for
captcha `c`, `balanceAt i` the balance the budget check reads on iteration
`i`; the loop stops at the budget guard, or when the balance falls below
`minBalance`, and otherwise appends the solve result. -/
def solveBatchGo {α : Type} (solveF : α → CaptchaResult) (balanceAt : Nat → Int)
    (maxPerBatch : Option Nat) (minBalance : Int) :
    Nat → List α → List CaptchaResult
  | _, [] => []
  | i, c :: cs =>
    if batchLimitReached maxPerBatch i then []
    else if balanceAt i < minBalance then []
    else solveF c ::
      solveBatchGo solveF balanceAt maxPerBatch minBalance (i + 1) cs

/-- `CaptchaSolver.solve_batch`: run the batch loop from index 0. -/
def solve_batch {α : Type} (solveF : α → CaptchaResult) (balanceAt : Nat → Int)
    (captchas : List α) (maxPerBatch : Option Nat) (minBalance : Int) :
    List CaptchaResult :=
  solveBatchGo solveF balanceAt maxPerBatch minBalance 0 captchas

/-! ## Theorems

Basic facts about the byte-pattern matcher, then the claims. -/

theorem startsWith_nil (h : Bytes) : startsWith [] h = true := rfl

theorem startsWith_cons_cons (a b : Nat) (p t : Bytes) :
    startsWith (a :: p) (b :: t) = ((a == b) && startsWith p t) := rfl

/-- A successful match decomposes the scanned bytes as the pattern followed by
a tail. -/
theorem startsWith_iff_append (p h : Bytes) :
    startsWith p h = true ↔ ∃ t, h = p ++ t := by
  induction p generalizing h with
  | nil => simp [startsWith]
  | cons a p ih =>
    cases h with
    | nil => simp [startsWith]
    | cons b t =>
      simp only [startsWith_cons_cons, Bool.and_eq_true, beq_iff_eq, ih,
        List.cons_append, List.cons.injEq]
      constructor
      · rintro ⟨rfl, u, rfl⟩
        exact ⟨u, rfl, rfl⟩
      · rintro ⟨u, rfl, rfl⟩
        exact ⟨rfl, u, rfl⟩

/-- C1: the image sniffer is a pure classifier — every byte string beginning
with a known magic sequence is mapped to exactly the matching format name
(`png`, `jpeg` with `JFIF`/`Exif` at offset 6, `gif`, `bmp`, `webp` with
`WEBP` at offset 8), while the empty byte string and any byte string matching
no magic sequence are mapped to Unknown (`none`). -/
theorem what_classifies (h : Bytes) :
    (startsWith pngMagic h = true → what h = some "png") ∧
    ((startsWith jpegMagicE0 h || startsWith jpegMagicE1 h) = true →
      (sublistAt 6 jfifTag h || sublistAt 6 exifTag h) = true →
      what h = some "jpeg") ∧
    ((startsWith gif87Magic h || startsWith gif89Magic h) = true →
      what h = some "gif") ∧
    (startsWith bmpMagic h = true → what h = some "bmp") ∧
    (startsWith riffMagic h = true → sublistAt 8 webpTag h = true →
      what h = some "webp") ∧
    (what ([] : Bytes) = none) ∧
    (startsWith pngMagic h = false →
      ((startsWith jpegMagicE0 h || startsWith jpegMagicE1 h)
        && (sublistAt 6 jfifTag h || sublistAt 6 exifTag h)) = false →
      (startsWith gif87Magic h || startsWith gif89Magic h) = false →
      startsWith bmpMagic h = false →
      (startsWith riffMagic h && sublistAt 8 webpTag h) = false →
      what h = none) := by
  refine ⟨?_, ?_, ?_, ?_, ?_, by decide, ?_⟩
  · intro hp
    rcases (startsWith_iff_append _ _).mp hp with ⟨t, rfl⟩
    simp [what, pngMagic, startsWith]
  · intro h1 h2
    have hpng : startsWith pngMagic h = false := by
      rcases Bool.or_eq_true _ _ ▸ h1 with hE | hE <;>
        rcases (startsWith_iff_append _ _).mp hE with ⟨t, rfl⟩ <;>
        simp [pngMagic, jpegMagicE0, jpegMagicE1, startsWith]
    simp [what, hpng, h1, h2]
  · intro hg
    rcases Bool.or_eq_true _ _ ▸ hg with hE | hE <;>
      rcases (startsWith_iff_append _ _).mp hE with ⟨t, rfl⟩ <;>
      simp [what, pngMagic, gif87Magic, gif89Magic, jpegMagicE0, jpegMagicE1,
        startsWith]
  · intro hb
    rcases (startsWith_iff_append _ _).mp hb with ⟨t, rfl⟩
    simp [what, pngMagic, gif87Magic, gif89Magic, jpegMagicE0, jpegMagicE1,
      bmpMagic, startsWith]
  · intro h1 h2
    rcases (startsWith_iff_append _ _).mp h1 with ⟨t, rfl⟩
    simp_all [what, pngMagic, gif87Magic, gif89Magic, jpegMagicE0, jpegMagicE1,
      bmpMagic, riffMagic, startsWith]
  · intro h1 h2 h3 h4 h5
    simp [what, h1, h2, h3, h4, h5]

/-- Witness for C1: evaluated at the concrete GIF89a signature. -/
theorem what_classifies_witness :
    what [0x47, 0x49, 0x46, 0x38, 0x39, 0x61] = some "gif" :=
  (what_classifies [0x47, 0x49, 0x46, 0x38, 0x39, 0x61]).2.2.1 (by decide)

/-- C8: the socket transport candidate port list is the contiguous ordered
range 8123..8130 — first element 8123, last element 8130, each successor one
more than its predecessor — on the fixed host `api.dbcapi.me`. -/
theorem socket_ports_contiguous_range :
    SOCKET_PORTS = (List.range 8).map (fun i => 8123 + i) ∧
    SOCKET_PORTS.head? = some 8123 ∧
    SOCKET_PORTS.getLast? = some 8130 ∧
    ((List.range (SOCKET_PORTS.length - 1)).all
      (fun i => SOCKET_PORTS.getD (i + 1) 0 == SOCKET_PORTS.getD i 0 + 1)) = true ∧
    SOCKET_HOST = "api.dbcapi.me" := by
  refine ⟨by decide, by decide, by decide, by decide, rfl⟩

/-- C7: exactly one credential form is active per client instance — with an
authtoken supplied at construction `get_auth` returns the authtoken form (and
that form is never the username/password form), without one it returns the
username/password pair; `get_auth` depends only on the construction-time
fields, which the embedding keeps immutable. -/
theorem get_auth_exactly_one_form (u p t : String) :
    get_auth ⟨u, p, some t⟩ = .token t ∧
    get_auth ⟨u, p, none⟩ = .userpwd u p ∧
    get_auth ⟨u, p, some t⟩ ≠ get_auth ⟨u, p, none⟩ := by
  refine ⟨rfl, rfl, fun hcontra => Auth.noConfusion hcontra⟩

/-- Witness for C7 at the credentials used by `tests/test_imports.py`. -/
theorem get_auth_exactly_one_form_witness :
    get_auth ⟨"user", "pass", some "token123"⟩ = .token "token123" ∧
    get_auth ⟨"user", "pass", none⟩ = .userpwd "user" "pass" :=
  ⟨(get_auth_exactly_one_form "user" "pass" "token123").1,
   (get_auth_exactly_one_form "user" "pass" "token123").2.1⟩

/-- C3 counterexample: the account query dictionary has no field named
`user_id` and none named `balance_cents`, already at a concrete account
state. -/
theorem get_user_no_user_id_field :
    (http_get_user ⟨43737, 0, 10, false⟩).lookup "user_id" = none ∧
    (http_get_user ⟨43737, 0, 10, false⟩).lookup "balance_cents" = none := by
  decide

/-- C3 (amended): for every successfully authenticated query the account
query returns a map whose fields are named `user`, `balance`, `rate` and
`is_banned` — `user` an integer id, `balance` an integer cents value, `rate`
a number and `is_banned` a boolean — and no others; the socket transport
returns the same map. -/
theorem get_user_fields (acc : ServerAccount) :
    (http_get_user acc).lookup "user" = some (.num acc.user) ∧
    (http_get_user acc).lookup "balance" = some (.num acc.balance) ∧
    (http_get_user acc).lookup "rate" = some (.num acc.rate) ∧
    (http_get_user acc).lookup "is_banned" = some (.bool acc.is_banned) ∧
    (http_get_user acc).map Prod.fst = ["user", "balance", "rate", "is_banned"] ∧
    socket_get_user acc = http_get_user acc := by
  refine ⟨rfl, rfl, rfl, rfl, rfl, rfl⟩

/-- C4: with no intervening solve or report — that is, over one and the same
account state — the value returned by `get_balance` equals the `balance`
field of the map returned by `get_user`, on both the HTTP and the socket
transport. -/
theorem get_balance_matches_get_user (acc : ServerAccount) :
    (http_get_user acc).lookup "balance" = some (.num (http_get_balance acc)) ∧
    (socket_get_user acc).lookup "balance" = some (.num (socket_get_balance acc)) := by
  refine ⟨rfl, rfl⟩

/-- Polling a job that stays pending for every granted poll exhausts the
scheduler and produces the empty result. -/
theorem decodePoll_pending (statusAt : Nat → JobStatus) (id : Nat) :
    ∀ fuel i, (∀ j, j < fuel → statusAt (i + j) = .pending) →
      decodePoll statusAt id i fuel = none := by
  intro fuel
  induction fuel with
  | zero => intro i _; rfl
  | succ n ih =>
    intro i h
    have h0 : statusAt i = .pending := by simpa using h 0 n.succ_pos
    show decodePoll statusAt id i (n + 1) = none
    simp only [decodePoll, h0]
    refine ih (i + 1) (fun j hj => ?_)
    have hx := h (j + 1) (by omega)
    rwa [show i + (j + 1) = i + 1 + j by omega] at hx

/-- C2: a submission never resolved within the caller's timeout makes `decode`
terminate with the TIMEOUT outcome as a normal return value — the empty
(falsy) result `Except.ok none`, never an `Except.error` — and the caller
observes a result without a text field rather than an error. -/
theorem decode_timeout_normal_return (id polls : Nat) (statusAt : Nat → JobStatus)
    (hnever : ∀ i, i < polls → statusAt i = .pending) :
    decode (.ok id) statusAt polls = .ok none ∧
    (∀ e, decode (.ok id) statusAt polls ≠ .error e) ∧
    observedText (decode (.ok id) statusAt polls) = none := by
  have hp : decodePoll statusAt id 0 polls = none :=
    decodePoll_pending statusAt id polls 0 (fun j hj => by simpa using hnever j hj)
  refine ⟨by simp [decode, hp], fun e => by simp [decode, hp], by simp [decode, observedText, hp]⟩

/-- Witness for C2: three granted polls, all observing a pending job. -/
theorem decode_timeout_normal_return_witness :
    decode (.ok 42) (fun _ => .pending) 3 = .ok none :=
  (decode_timeout_normal_return 42 3 (fun _ => .pending) (fun _ _ => rfl)).1

/-- C5: the facade balance check degrades any failing underlying call to the
documented sentinel 0 instead of propagating the error, and returns every
non-failing balance unchanged. -/
theorem wrapper_get_balance_sentinel (r : Except String Int) :
    (∀ e, r = .error e → wrapperGetBalance r = 0) ∧
    (∀ b, r = .ok b → wrapperGetBalance r = b) := by
  constructor
  · rintro e rfl; rfl
  · rintro b rfl; rfl

/-- Witness for C5 at a failing and at a non-failing balance call. -/
theorem wrapper_get_balance_sentinel_witness :
    wrapperGetBalance (.error "connection reset") = 0 ∧
    wrapperGetBalance (.ok 500) = 500 :=
  ⟨(wrapper_get_balance_sentinel (.error "connection reset")).1 "connection reset" rfl,
   (wrapper_get_balance_sentinel (.ok 500)).2 500 rfl⟩

/-- When every attempt fails with the overload kind, the retry loop returns
the exhaustion failure and performs exactly the sleeps of `overloadSleeps`. -/
theorem solveGo_overload_all (msg : String) (m : Nat) :
    ∀ fuel a, solveGo (fun _ => .overload msg) m a fuel =
      (failAfterRetries, overloadSleeps m a fuel) := by
  intro fuel
  induction fuel with
  | zero => intro a; rfl
  | succ n ih =>
    intro a
    simp [solveGo, overloadSleeps, ih (a + 1)]

/-- One step of the backoff sleep list. -/
theorem overloadSleeps_succ (m a fuel : Nat) :
    overloadSleeps m a (fuel + 1) =
      (if a < m - 1 then [2 ^ a] else []) ++ overloadSleeps m (a + 1) fuel := rfl

/-- Started at attempt `a` with exactly the remaining budget, the retryable
backoff sleeps are `2 ^ i` for every attempt index `i` below the last one. -/
theorem overloadSleeps_eq_range (m : Nat) :
    ∀ fuel a, a + fuel = m →
      overloadSleeps m a fuel = (List.range' a (fuel - 1)).map (fun i => 2 ^ i) := by
  intro fuel
  induction fuel with
  | zero => intro a _; rfl
  | succ n ih =>
    intro a ha
    cases n with
    | zero =>
      have hnot : ¬ a < m - 1 := by omega
      rw [overloadSleeps_succ, if_neg hnot]
      simp [overloadSleeps]
    | succ k =>
      have hlt : a < m - 1 := by omega
      have ih' := ih (a + 1) (by omega)
      rw [overloadSleeps_succ, if_pos hlt, ih']
      simp [List.range'_succ]

/-- C6: with every attempt failing with the overload error kind, the solver
retries with exponential backoff — it sleeps `2 ^ i` seconds exactly for the
attempt indices `i < max_retries - 1`, in order — and once the retry budget
`max_retries` is exhausted it returns the failure result instead of retrying
further. -/
theorem solve_overload_backoff (msg : String) (m : Nat) :
    solve (fun _ => .overload msg) m =
      (failAfterRetries, (List.range (m - 1)).map (fun i => 2 ^ i)) := by
  have h1 := solveGo_overload_all msg m m 0
  have h2 := overloadSleeps_eq_range m m 0 (by omega)
  rw [solve, h1, h2, List.range_eq_range']

/-- With a positive batch limit `m`, the loop started at index `i` appends at
most `m - i` results. -/
theorem solveBatchGo_length_le {α : Type} (solveF : α → CaptchaResult)
    (balanceAt : Nat → Int) (minBal : Int) (m : Nat) (hm : 0 < m) :
    ∀ (cs : List α) (i : Nat),
      (solveBatchGo solveF balanceAt (some m) minBal i cs).length ≤ m - i := by
  intro cs
  induction cs with
  | nil => intro i; simp [solveBatchGo]
  | cons c cs ih =>
    intro i
    by_cases hbreak : batchLimitReached (some m) i = true
    · simp [solveBatchGo, hbreak]
    · have hi : i < m := by
        simp [batchLimitReached] at hbreak
        omega
      by_cases hbal : balanceAt i < minBal
      · simp [solveBatchGo, hbreak, hbal]
      · have hrec := ih (i + 1)
        simp [solveBatchGo, hbreak, hbal]
        omega

/-- The batch loop solves captchas strictly in input order: its output is the
image under the solve function of a prefix of its input. -/
theorem solveBatchGo_prefix {α : Type} (solveF : α → CaptchaResult)
    (balanceAt : Nat → Int) (mpb : Option Nat) (minBal : Int) :
    ∀ (cs : List α) (i : Nat),
      solveBatchGo solveF balanceAt mpb minBal i cs =
        (cs.take
          (solveBatchGo solveF balanceAt mpb minBal i cs).length).map solveF := by
  intro cs
  induction cs with
  | nil => intro i; rfl
  | cons c cs ih =>
    intro i
    by_cases hbreak : batchLimitReached mpb i = true
    · simp [solveBatchGo, hbreak]
    · by_cases hbal : balanceAt i < minBal
      · simp [solveBatchGo, hbreak, hbal]
      · simp only [solveBatchGo, hbreak, hbal, Bool.false_eq_true, if_false,
          List.length_cons, List.take_succ_cons, List.map_cons, List.cons.injEq,
          true_and]
        exact ih (i + 1)

/-- Every solve the batch loop performs happened while the balance read by the
budget check was still at least the minimum. -/
theorem solveBatchGo_balance {α : Type} (solveF : α → CaptchaResult)
    (balanceAt : Nat → Int) (mpb : Option Nat) (minBal : Int) :
    ∀ (cs : List α) (i j : Nat),
      j < (solveBatchGo solveF balanceAt mpb minBal i cs).length →
      minBal ≤ balanceAt (i + j) := by
  intro cs
  induction cs with
  | nil => intro i j hj; simp [solveBatchGo] at hj
  | cons c cs ih =>
    intro i j hj
    by_cases hbreak : batchLimitReached mpb i = true
    · simp [solveBatchGo, hbreak] at hj
    · by_cases hbal : balanceAt i < minBal
      · simp [solveBatchGo, hbreak, hbal] at hj
      · cases j with
        | zero => simpa using le_of_not_lt hbal
        | succ k =>
          simp only [solveBatchGo, hbreak, hbal, Bool.false_eq_true, if_false,
            List.length_cons, Nat.succ_lt_succ_iff] at hj
          have hrec := ih (i + 1) k hj
          rwa [show i + 1 + k = i + (k + 1) by omega] at hrec

/-- C9 counterexample: with `max_per_batch` set to 0 the Python truthiness
guard `if max_per_batch and i >= max_per_batch` never fires, so the batch is
not limited to at most 0 results — here a one-element batch with ample
balance yields one result. -/
theorem solve_batch_limit_zero_counterexample :
    ¬ ((solve_batch (fun _ : Nat => ⟨false, none, none, none, some "err"⟩)
        (fun _ => 1000) [7] (some 0) 100).length ≤ 0) := by
  decide

/-- C9 (amended): `solve_batch` returns at most `max_per_batch` results when
`max_per_batch` is set to a positive value (a limit of `None` or `0` imposes
no cap), attempts captchas strictly in input-list order — the output is the
positional image of a prefix of the input — and performs no solve attempt on
an iteration whose balance check read a balance below `min_balance_cents`. -/
theorem solve_batch_ordered_prefix_budget {α : Type} (solveF : α → CaptchaResult)
    (balanceAt : Nat → Int) (captchas : List α) (mpb : Option Nat) (minBal : Int) :
    (∀ m, mpb = some m → 0 < m →
      (solve_batch solveF balanceAt captchas mpb minBal).length ≤ m) ∧
    solve_batch solveF balanceAt captchas mpb minBal =
      (captchas.take
        (solve_batch solveF balanceAt captchas mpb minBal).length).map solveF ∧
    (∀ i, i < (solve_batch solveF balanceAt captchas mpb minBal).length →
      minBal ≤ balanceAt i) := by
  refine ⟨?_, ?_, ?_⟩
  · rintro m rfl hm
    have hlen := solveBatchGo_length_le solveF balanceAt minBal m hm captchas 0
    simpa [solve_batch] using hlen
  · exact solveBatchGo_prefix solveF balanceAt mpb minBal captchas 0
  · intro i hi
    have hb := solveBatchGo_balance solveF balanceAt mpb minBal captchas 0 i hi
    simpa using hb

/-- Witness for C9 at a three-element batch capped at 2. -/
theorem solve_batch_ordered_prefix_budget_witness :
    (solve_batch (fun _ : Nat => ⟨false, none, none, none, some "err"⟩)
      (fun _ => 1000) [7, 8, 9] (some 2) 100).length ≤ 2 :=
  (solve_batch_ordered_prefix_budget _ _ _ _ _).1 2 rfl (by decide)

/-- Invariant of the retry loop: whatever the attempt outcomes, a successful
result carries a non-empty solved text, and a failed result carries a
non-empty error string. -/
theorem solveGo_success_error (outcomes : Nat → DecodeOutcome) (m : Nat) :
    ∀ fuel a,
      ((solveGo outcomes m a fuel).1.success = true →
        ∃ t, (solveGo outcomes m a fuel).1.text = some t ∧ t ≠ "") ∧
      ((solveGo outcomes m a fuel).1.success = false →
        ∃ e, (solveGo outcomes m a fuel).1.error = some e ∧ e ≠ "") := by
  intro fuel
  induction fuel with
  | zero =>
    intro a
    constructor
    · intro hcontra
      simp [solveGo, failAfterRetries] at hcontra
    · intro _
      exact ⟨"Failed to solve CAPTCHA after retries", rfl, by decide⟩
  | succ n ih =>
    intro a
    cases ho : outcomes a with
    | ok res =>
      cases res with
      | none => simpa [solveGo, ho] using ih (a + 1)
      | some r =>
        cases htext : r.text with
        | none => simpa [solveGo, ho, htext] using ih (a + 1)
        | some t =>
          by_cases ht : t = ""
          · simpa [solveGo, ho, htext, if_pos ht] using ih (a + 1)
          · constructor
            · intro _
              exact ⟨t, by simp [solveGo, ho, htext, if_neg ht], ht⟩
            · intro hcontra
              simp [solveGo, ho, htext, if_neg ht] at hcontra
    | accessDenied msg =>
      constructor
      · intro hcontra
        simp [solveGo, ho] at hcontra
      · intro _
        refine ⟨"Authentication failed: " ++ msg, by simp [solveGo, ho], ?_⟩
        intro hcontra
        have hd := congrArg String.data hcontra
        simp at hd
    | valueError msg =>
      constructor
      · intro hcontra
        simp [solveGo, ho] at hcontra
      · intro _
        refine ⟨"Invalid image: " ++ msg, by simp [solveGo, ho], ?_⟩
        intro hcontra
        have hd := congrArg String.data hcontra
        simp at hd
    | overload msg => simpa [solveGo, ho] using ih (a + 1)
    | otherFailure msg => simpa [solveGo, ho] using ih (a + 1)

/-- C10: `CaptchaSolver.solve` is total at its public interface — in the
embedding it returns a `CaptchaResult` for every sequence of attempt
outcomes, the caught exception kinds included, rather than an `Except`-style
error.  Authentication failures and invalid-image errors come back as results
with `success = false` and a non-empty error string (every failed result has
one), and `success = true` holds only when an attempt produced a decode
result with non-empty text. -/
theorem solve_total_and_classified (outcomes : Nat → DecodeOutcome) (m : Nat) :
    ((solve outcomes m).1.success = true →
      ∃ t, (solve outcomes m).1.text = some t ∧ t ≠ "") ∧
    ((solve outcomes m).1.success = false →
      ∃ e, (solve outcomes m).1.error = some e ∧ e ≠ "") ∧
    (∀ msg, 0 < m → outcomes 0 = .accessDenied msg →
      (solve outcomes m).1 =
        ⟨false, none, none, none, some ("Authentication failed: " ++ msg)⟩) ∧
    (∀ msg, 0 < m → outcomes 0 = .valueError msg →
      (solve outcomes m).1 =
        ⟨false, none, none, none, some ("Invalid image: " ++ msg)⟩) := by
  refine ⟨(solveGo_success_error outcomes m m 0).1,
    (solveGo_success_error outcomes m m 0).2, ?_, ?_⟩
  · rintro msg hm ho
    obtain ⟨k, rfl⟩ : ∃ k, m = k + 1 := ⟨m - 1, by omega⟩
    simp [solve, solveGo, ho]
  · rintro msg hm ho
    obtain ⟨k, rfl⟩ : ∃ k, m = k + 1 := ⟨m - 1, by omega⟩
    simp [solve, solveGo, ho]

/-- Witness for C10 at a single authentication-refused attempt. -/
theorem solve_total_and_classified_witness :
    (solve (fun _ => .accessDenied "bad token") 1).1 =
      ⟨false, none, none, none, some ("Authentication failed: " ++ "bad token")⟩ :=
  (solve_total_and_classified (fun _ => .accessDenied "bad token") 1).2.2.1
    "bad token" (by decide) rfl

end DBC
